import Mathlib

/-!
Verification development for a browser end-to-end test suite
(saucedemo-intermediate-tests). The repository consists of one custom
command (`login` in commands.js) and three suites of scenarios
(intermediate-test.cy.js). We embed the command sequences issued by the
suite as a small command language, and model the external application
under test and the external runner from the specification, since neither
is part of the repository source.
-/

/-- Substring search helper: does `pat` occur at the head of `s`. -/
def charsHasPref : List Char → List Char → Bool
  | [], _ => true
  | _ :: _, [] => false
  | a :: as, b :: bs => a = b && charsHasPref as bs

/-- Substring search helper: does `pat` occur anywhere in `s`. -/
def charsHasSub (pat s : List Char) : Bool :=
  match s with
  | [] => pat.isEmpty
  | _ :: rest => charsHasPref pat s || charsHasSub pat rest

/-- String containment, as used by the url and text assertions. -/
def strContains (s pat : String) : Bool :=
  charsHasSub pat.data s.data

/-- One command issued to the external runner. Each constructor embeds one
chained statement of the source file: a navigation, a storage-clearing
call, a field entry, a click, or an assertion chain. -/
inductive CyCmd where
  | visit (url : String)
  | clearAllCookies
  | clearAllLocalStorage
  | getType (selector text : String)
  | getClick (selector : String)
  | getShouldBeVisibleAndContain (selector sub : String)
  | urlShouldInclude (sub : String)
  | getFindShouldHaveLength (container item : String) (n : Nat)
  | getShouldHaveText (selector text : String)
  | getShouldHaveLength (selector : String) (n : Nat)
  | getShouldNotExist (selector : String)
deriving DecidableEq, Repr

/-- Classifier: the command is an assertion (a should chain). -/
def isAssertion : CyCmd → Bool
  | .getShouldBeVisibleAndContain _ _ => true
  | .urlShouldInclude _ => true
  | .getFindShouldHaveLength _ _ _ => true
  | .getShouldHaveText _ _ => true
  | .getShouldHaveLength _ _ => true
  | .getShouldNotExist _ => true
  | _ => false

/-- Classifier: the command is a navigation. -/
def isVisit : CyCmd → Bool
  | .visit _ => true
  | _ => false

/-- The application root URL used throughout the source. -/
def rootUrl : String := "https://www.saucedemo.com/"

/-- Embedding of the custom command in commands.js lines 34 to 39:
visit the root, type the username, type the password, click the login
button. -/
def login (username password : String) : List CyCmd :=
  [CyCmd.visit rootUrl,
   CyCmd.getType "#user-name" username,
   CyCmd.getType "#password" password,
   CyCmd.getClick "#login-button"]

/-- The seeded username array of intermediate-test.cy.js line 11. -/
def users : List String := ["standard_user", "locked_out_user", "problem_user"]

/-- One scenario: a name and a body of commands. -/
structure Scenario where
  name : String
  body : List CyCmd
deriving DecidableEq, Repr

/-- One suite: a name, a setup hook run before each scenario, and the
scenarios in source order. -/
structure Suite where
  name : String
  beforeEach : List CyCmd
  scenarios : List Scenario
deriving DecidableEq, Repr

/-- Embedding of the generated login scenario (intermediate-test.cy.js
lines 26 to 42): log in with the constant password, then branch on the
username. -/
def loginScenario (user : String) : Scenario :=
  { name := "should handle login attempt for " ++ user,
    body := login user "secret_sauce"
      ++ (if user = "locked_out_user" then
            [CyCmd.getShouldBeVisibleAndContain "h3[data-test=\"error\"]" "locked out"]
          else
            [CyCmd.urlShouldInclude "inventory"]) }

/-- Embedding of suite 1 (intermediate-test.cy.js lines 17 to 44). -/
def dataDrivenLoginTests : Suite :=
  { name := "Data-Driven Login Tests",
    beforeEach := [CyCmd.visit rootUrl, CyCmd.clearAllCookies, CyCmd.clearAllLocalStorage],
    scenarios := users.map loginScenario }

/-- Embedding of the first scenario of suite 2 (lines 60 to 65). -/
def displayProductsScenario : Scenario :=
  { name := "should display all 6 products on inventory page",
    body := [CyCmd.getFindShouldHaveLength ".inventory_list" ".inventory_item" 6] }

/-- Embedding of the second scenario of suite 2 (lines 67 to 73). -/
def addToCartScenario : Scenario :=
  { name := "should add product to cart and update badge",
    body := [CyCmd.getClick "#add-to-cart-sauce-labs-backpack",
             CyCmd.getShouldHaveText ".shopping_cart_link" "1"] }

/-- Embedding of suite 2 (intermediate-test.cy.js lines 50 to 75). -/
def productTests : Suite :=
  { name := "Product Tests",
    beforeEach := [CyCmd.visit rootUrl, CyCmd.clearAllCookies, CyCmd.clearAllLocalStorage]
      ++ login "standard_user" "secret_sauce",
    scenarios := [displayProductsScenario, addToCartScenario] }

/-- Embedding of the first scenario of suite 3 (lines 91 to 94). -/
def displayCartScenario : Scenario :=
  { name := "should display the added product in cart",
    body := [CyCmd.getShouldHaveLength ".cart_item" 1] }

/-- Embedding of the second scenario of suite 3 (lines 96 to 102). -/
def removeFromCartScenario : Scenario :=
  { name := "should remove product from cart successfully",
    body := [CyCmd.getClick "#remove-sauce-labs-backpack",
             CyCmd.getShouldNotExist ".inventory_item_name"] }

/-- Embedding of the third scenario of suite 3 (lines 104 to 110). -/
def checkoutScenario : Scenario :=
  { name := "should navigate to checkout page",
    body := [CyCmd.getClick "#checkout", CyCmd.urlShouldInclude "checkout-step-one"] }

/-- Embedding of suite 3 (intermediate-test.cy.js lines 81 to 112). Note
this setup hook issues no storage-clearing command. -/
def shoppingCartTests : Suite :=
  { name := "Shopping Cart Tests",
    beforeEach := [CyCmd.visit rootUrl]
      ++ login "standard_user" "secret_sauce"
      ++ [CyCmd.getClick "#add-to-cart-sauce-labs-backpack",
          CyCmd.getClick ".shopping_cart_link"],
    scenarios := [displayCartScenario, removeFromCartScenario, checkoutScenario] }

/-- The three suites in file order. -/
def suites : List Suite := [dataDrivenLoginTests, productTests, shoppingCartTests]

/-- Modelled from the spec: the pages of the external application under
test (spec section 6): the login form, the inventory listing, the cart
view and the checkout entry page, plus the blank page the runner starts
from. The application itself is not part of this repository. -/
inductive Page where
  | blank
  | loginPage
  | inventory
  | cart
  | checkoutStepOne
deriving DecidableEq, Repr

/-- Modelled from the spec: the browser state owned by the external
runner (spec section 3, session and page state): current page and URL,
the two login form fields, the error indicator, the cart contents kept
in browser storage, and the cookie store. -/
structure AppState where
  page : Page
  url : String
  usernameField : String
  passwordField : String
  errorText : Option String
  cart : List String
  cookies : List String
deriving DecidableEq, Repr

/-- Modelled from the spec: the fresh browser context the external
runner establishes for a scenario (spec section 5). -/
def freshState : AppState :=
  { page := Page.blank
    url := "about:blank"
    usernameField := ""
    passwordField := ""
    errorText := none
    cart := []
    cookies := [] }

/-- Modelled from the spec: the context reset the external runner
performs between scenarios (spec section 5: each scenario runs against a
fresh browser navigation context); all client state is discarded. -/
def resetContext (_ : AppState) : AppState := freshState

/-- Modelled from the spec: the demo inventory content, six items each
with an add-to-cart control keyed by product slug (spec sections 6
and 9). -/
def inventoryItems : List String :=
  ["sauce-labs-backpack", "sauce-labs-bike-light", "sauce-labs-bolt-t-shirt",
   "sauce-labs-fleece-jacket", "sauce-labs-onesie", "test-allthethings-t-shirt-red"]

/-- Modelled from the spec: the usernames the application admits with
the constant password (spec section 4.2: one valid-standard and one
valid-but-flagged account). -/
def validUsers : List String := ["standard_user", "problem_user"]

/-- Modelled from the spec: the error text shown for the locked account;
the spec only requires that it contains the words locked out. -/
def lockedOutMsg : String :=
  "Epic sadface: Sorry, this user has been locked out."

/-- Modelled from the spec: the error text for unknown credentials. -/
def badCredsMsg : String :=
  "Epic sadface: Username and password do not match any user in this service"

/-- Number of product item elements present in the current page. -/
def inventoryItemCount (s : AppState) : Nat :=
  match s.page with
  | Page.inventory => inventoryItems.length
  | _ => 0

/-- Number of product name elements present in the current page. -/
def productNameCount (s : AppState) : Nat :=
  match s.page with
  | Page.inventory => inventoryItems.length
  | Page.cart => s.cart.length
  | _ => 0

/-- The cart badge text: absent when the cart is empty, otherwise the
decimal item count. -/
def cartBadgeText (s : AppState) : Option String :=
  if s.cart.length = 0 then none else some (toString s.cart.length)

/-- The text of the shopping cart link element: the badge text when the
badge is present, empty otherwise. -/
def cartLinkText (s : AppState) : String :=
  (cartBadgeText s).getD ""

/-- Modelled from the spec: one step of the external runner executing
one command against the application (spec sections 5 to 7). A command
yields the next state, or none when an element is absent or an assertion
fails; both failure kinds are fatal to the scenario. -/
def execCmd (s : AppState) : CyCmd → Option AppState
  | CyCmd.visit u =>
      if u = rootUrl then
        some { s with
                page := Page.loginPage
                url := rootUrl
                usernameField := ""
                passwordField := ""
                errorText := none }
      else none
  | CyCmd.clearAllCookies => some { s with cookies := [] }
  | CyCmd.clearAllLocalStorage => some { s with cart := [] }
  | CyCmd.getType sel text =>
      if s.page = Page.loginPage then
        if sel = "#user-name" then
          some { s with usernameField := s.usernameField ++ text }
        else if sel = "#password" then
          some { s with passwordField := s.passwordField ++ text }
        else none
      else none
  | CyCmd.getClick sel =>
      if sel = "#login-button" then
        if s.page = Page.loginPage then
          if s.usernameField = "locked_out_user" ∧ s.passwordField = "secret_sauce" then
            some { s with errorText := some lockedOutMsg }
          else if s.usernameField ∈ validUsers ∧ s.passwordField = "secret_sauce" then
            some { s with
                    page := Page.inventory
                    url := rootUrl ++ "inventory.html"
                    errorText := none
                    cookies := ["session-username=" ++ s.usernameField] }
          else some { s with errorText := some badCredsMsg }
        else none
      else if sel = "#add-to-cart-sauce-labs-backpack" then
        if s.page = Page.inventory ∧ "sauce-labs-backpack" ∉ s.cart then
          some { s with cart := s.cart ++ ["sauce-labs-backpack"] }
        else none
      else if sel = ".shopping_cart_link" then
        if s.page = Page.inventory ∨ s.page = Page.cart ∨ s.page = Page.checkoutStepOne then
          some { s with page := Page.cart, url := rootUrl ++ "cart.html" }
        else none
      else if sel = "#remove-sauce-labs-backpack" then
        if (s.page = Page.inventory ∨ s.page = Page.cart) ∧ "sauce-labs-backpack" ∈ s.cart then
          some { s with cart := s.cart.erase "sauce-labs-backpack" }
        else none
      else if sel = "#checkout" then
        if s.page = Page.cart then
          some { s with
                  page := Page.checkoutStepOne
                  url := rootUrl ++ "checkout-step-one.html" }
        else none
      else none
  | CyCmd.getShouldBeVisibleAndContain sel sub =>
      if sel = "h3[data-test=\"error\"]" then
        match s.errorText with
        | some t => if strContains t sub then some s else none
        | none => none
      else none
  | CyCmd.urlShouldInclude sub =>
      if strContains s.url sub then some s else none
  | CyCmd.getFindShouldHaveLength container item n =>
      if container = ".inventory_list" ∧ item = ".inventory_item" then
        if s.page = Page.inventory ∧ inventoryItems.length = n then some s else none
      else none
  | CyCmd.getShouldHaveText sel t =>
      if sel = ".shopping_cart_link" then
        if s.page = Page.loginPage ∨ s.page = Page.blank then none
        else if cartLinkText s = t then some s else none
      else none
  | CyCmd.getShouldHaveLength sel n =>
      if sel = ".cart_item" then
        if s.page = Page.cart ∧ s.cart.length = n then some s else none
      else none
  | CyCmd.getShouldNotExist sel =>
      if sel = ".inventory_item_name" then
        if productNameCount s = 0 then some s else none
      else none

/-- Run a command list, stopping at the first failure. -/
def execList : AppState → List CyCmd → Option AppState
  | s, [] => some s
  | s, c :: cs =>
      match execCmd s c with
      | some s2 => execList s2 cs
      | none => none

/-- The state reached by a suite setup hook from a fresh context. -/
def afterSetup (su : Suite) : Option AppState :=
  execList freshState su.beforeEach

/-- Outcome of one scenario run in isolation: its suite setup hook
followed by its body, from the fresh context the runner provides. -/
def scenarioPasses (su : Suite) (sc : Scenario) : Bool :=
  (execList freshState (su.beforeEach ++ sc.body)).isSome

/-- Outcomes of a scenario list run in sequence within one suite run:
the runner resets the context before each scenario, then runs the setup
hook and the body; the reached state is threaded to the next scenario. -/
def runSuiteAux (before : List CyCmd) : AppState → List Scenario → List Bool
  | _, [] => []
  | s, sc :: rest =>
      match execList (resetContext s) (before ++ sc.body) with
      | some s2 => true :: runSuiteAux before s2 rest
      | none => false :: runSuiteAux before (resetContext s) rest

/-- Outcomes of a full suite run in source order. -/
def runSuite (su : Suite) : List Bool :=
  runSuiteAux su.beforeEach freshState su.scenarios

/-- Claim C1: for each of the three seeded usernames logged in with the
constant password, the generated scenario branches on the username: the
locked username gets the visible-error assertion whose expected text is
locked out, the other two get the location-contains-inventory assertion;
and in the modelled application each branch is the one that holds after
the login commands run, so each generated scenario passes. -/
theorem spec_C1 :
    (loginScenario "locked_out_user").body
      = login "locked_out_user" "secret_sauce"
        ++ [CyCmd.getShouldBeVisibleAndContain "h3[data-test=\"error\"]" "locked out"]
    ∧ (loginScenario "standard_user").body
      = login "standard_user" "secret_sauce" ++ [CyCmd.urlShouldInclude "inventory"]
    ∧ (loginScenario "problem_user").body
      = login "problem_user" "secret_sauce" ++ [CyCmd.urlShouldInclude "inventory"]
    ∧ ((execList freshState (dataDrivenLoginTests.beforeEach
          ++ login "locked_out_user" "secret_sauce")).map
        (fun s => (s.errorText.map (fun t => strContains t "locked out")).getD false))
      = some true
    ∧ ((execList freshState (dataDrivenLoginTests.beforeEach
          ++ login "standard_user" "secret_sauce")).map
        (fun s => strContains s.url "inventory")) = some true
    ∧ ((execList freshState (dataDrivenLoginTests.beforeEach
          ++ login "problem_user" "secret_sauce")).map
        (fun s => strContains s.url "inventory")) = some true
    ∧ (dataDrivenLoginTests.scenarios.map (scenarioPasses dataDrivenLoginTests))
      = [true, true, true] := by
  decide

/-- Claim C2: for every username and password, the login action is
exactly the four commands navigate to the root, populate the username
field, populate the password field, submit the form, in that order; and
none of its commands is an assertion, so it makes no success or failure
judgment of its own. -/
theorem spec_C2 (u p : String) :
    login u p
      = [CyCmd.visit rootUrl,
         CyCmd.getType "#user-name" u,
         CyCmd.getType "#password" p,
         CyCmd.getClick "#login-button"]
    ∧ (login u p).all (fun c => !(isAssertion c)) = true := by
  exact ⟨rfl, rfl⟩

/-- Witness for claim C2 at a concrete username and password. -/
theorem spec_C2_witness :
    login "standard_user" "secret_sauce"
      = [CyCmd.visit rootUrl,
         CyCmd.getType "#user-name" "standard_user",
         CyCmd.getType "#password" "secret_sauce",
         CyCmd.getClick "#login-button"]
    ∧ (login "standard_user" "secret_sauce").all (fun c => !(isAssertion c)) = true :=
  spec_C2 "standard_user" "secret_sauce"

/-- Claim C3 as stated is false: the Shopping Cart suite setup hook
contains neither the cookie-clearing command nor the storage-clearing
command. -/
theorem spec_C3_counterexample :
    CyCmd.clearAllCookies ∉ shoppingCartTests.beforeEach
    ∧ CyCmd.clearAllLocalStorage ∉ shoppingCartTests.beforeEach := by
  decide

/-- Claim C3 amended: the login and product suites clear cookies and
storage in their setup hooks before the scenario body runs, but the
Shopping Cart suite does not; its setup only begins with a fresh
navigation to the root. -/
theorem spec_C3_amended :
    (CyCmd.clearAllCookies ∈ dataDrivenLoginTests.beforeEach
      ∧ CyCmd.clearAllLocalStorage ∈ dataDrivenLoginTests.beforeEach)
    ∧ (CyCmd.clearAllCookies ∈ productTests.beforeEach
      ∧ CyCmd.clearAllLocalStorage ∈ productTests.beforeEach)
    ∧ CyCmd.clearAllCookies ∉ shoppingCartTests.beforeEach
    ∧ CyCmd.clearAllLocalStorage ∉ shoppingCartTests.beforeEach
    ∧ shoppingCartTests.beforeEach.head? = some (CyCmd.visit rootUrl) := by
  decide

/-- Claim C4: in the product suite, before the add-to-cart click the
cart badge is absent, after the click its text is exactly 1, the
scenario body is the click followed by the badge-text assertion, and the
scenario passes. -/
theorem spec_C4 :
    addToCartScenario.body
      = [CyCmd.getClick "#add-to-cart-sauce-labs-backpack",
         CyCmd.getShouldHaveText ".shopping_cart_link" "1"]
    ∧ (afterSetup productTests).map cartBadgeText = some none
    ∧ ((afterSetup productTests).bind
        (fun s => execCmd s (CyCmd.getClick "#add-to-cart-sauce-labs-backpack"))).map
        cartBadgeText = some (some "1")
    ∧ scenarioPasses productTests addToCartScenario = true := by
  decide

/-- Claim C5: after the product suite setup the modelled listing page
holds exactly 6 product items, the scenario asserts that the item count
found within the listing container equals 6, and the scenario passes. -/
theorem spec_C5 :
    displayProductsScenario.body
      = [CyCmd.getFindShouldHaveLength ".inventory_list" ".inventory_item" 6]
    ∧ (afterSetup productTests).map inventoryItemCount = some 6
    ∧ scenarioPasses productTests displayProductsScenario = true := by
  decide

/-- Claim C6: after the cart suite setup exactly one cart line item is
present and the display scenario passes; after clicking the remove
control zero product name elements remain and the remove scenario
passes. -/
theorem spec_C6 :
    displayCartScenario.body = [CyCmd.getShouldHaveLength ".cart_item" 1]
    ∧ (afterSetup shoppingCartTests).map (fun s => s.cart.length) = some 1
    ∧ scenarioPasses shoppingCartTests displayCartScenario = true
    ∧ removeFromCartScenario.body
      = [CyCmd.getClick "#remove-sauce-labs-backpack",
         CyCmd.getShouldNotExist ".inventory_item_name"]
    ∧ ((afterSetup shoppingCartTests).bind
        (fun s => execCmd s (CyCmd.getClick "#remove-sauce-labs-backpack"))).map
        productNameCount = some 0
    ∧ scenarioPasses shoppingCartTests removeFromCartScenario = true := by
  decide

/-- Claim C7: the cart suite setup leaves one item in the cart, clicking
the checkout control from the cart view reaches a location containing
checkout-step-one, and the checkout scenario passes. -/
theorem spec_C7 :
    checkoutScenario.body
      = [CyCmd.getClick "#checkout", CyCmd.urlShouldInclude "checkout-step-one"]
    ∧ (afterSetup shoppingCartTests).map (fun s => s.cart.length) = some 1
    ∧ ((afterSetup shoppingCartTests).bind
        (fun s => execCmd s (CyCmd.getClick "#checkout"))).map
        (fun s => strContains s.url "checkout-step-one") = some true
    ∧ scenarioPasses shoppingCartTests checkoutScenario = true := by
  decide

/-- Claim C8: the login suite generates exactly one scenario per
username of the fixed three-element array, in array order, and each
scenario performs the login action with that username and the constant
password as its first four commands. -/
theorem spec_C8 :
    users = ["standard_user", "locked_out_user", "problem_user"]
    ∧ dataDrivenLoginTests.scenarios.length = users.length
    ∧ dataDrivenLoginTests.scenarios.map (fun sc => sc.body.take 4)
      = users.map (fun u => login u "secret_sauce")
    ∧ dataDrivenLoginTests.scenarios.map Scenario.name
      = users.map (fun u => "should handle login attempt for " ++ u) := by
  decide

/-- Claim C9: for each of the three suites, the outcomes of the full
sequential suite run, in which the runner resets the context before each
scenario, equal the outcomes of each scenario run in isolation after
only its own setup hook; and all eight scenarios pass either way. -/
theorem spec_C9 :
    runSuite dataDrivenLoginTests
      = dataDrivenLoginTests.scenarios.map (scenarioPasses dataDrivenLoginTests)
    ∧ runSuite productTests = productTests.scenarios.map (scenarioPasses productTests)
    ∧ runSuite shoppingCartTests
      = shoppingCartTests.scenarios.map (scenarioPasses shoppingCartTests)
    ∧ runSuite dataDrivenLoginTests = [true, true, true]
    ∧ runSuite productTests = [true, true]
    ∧ runSuite shoppingCartTests = [true, true, true] := by
  decide

/-- Claim C10: for every username and password the first command of the
login action is its own navigation to the root, and in the login suite
every scenario runs visit, clear cookies, clear storage, visit as its
first four commands and contains exactly two navigations in total, so
the clearing happens between the two navigations. -/
theorem spec_C10 :
    (∀ u p : String, (login u p).head? = some (CyCmd.visit rootUrl))
    ∧ ∀ sc ∈ dataDrivenLoginTests.scenarios,
        (dataDrivenLoginTests.beforeEach ++ sc.body).take 4
          = [CyCmd.visit rootUrl, CyCmd.clearAllCookies,
             CyCmd.clearAllLocalStorage, CyCmd.visit rootUrl]
        ∧ (dataDrivenLoginTests.beforeEach ++ sc.body).countP isVisit = 2 := by
  refine ⟨fun u p => rfl, ?_⟩
  decide

/-- Witness for claim C10 at a concrete scenario of the login suite. -/
theorem spec_C10_witness :
    loginScenario "standard_user" ∈ dataDrivenLoginTests.scenarios
    ∧ ((dataDrivenLoginTests.beforeEach ++ (loginScenario "standard_user").body).take 4
        = [CyCmd.visit rootUrl, CyCmd.clearAllCookies,
           CyCmd.clearAllLocalStorage, CyCmd.visit rootUrl]
      ∧ (dataDrivenLoginTests.beforeEach
          ++ (loginScenario "standard_user").body).countP isVisit = 2) :=
  ⟨by decide, spec_C10.2 (loginScenario "standard_user") (by decide)⟩
